import Mathlib

/-!
Shallow embedding of the capture-to-pose orchestration pipeline of
`object_recognition_node/src/perception_interface.cpp` (class `PerceptionInterface`).

Modelling conventions:
* A depth / coordinate value of a point is `Option ℚ`: `none` models a NaN or
  non-finite float (the code tests `std::isnan(point.z) || !std::isfinite(point.z)`),
  `some q` models a finite value.  Only orderings and selections of depth values
  matter to the claims, so finite floats are modelled by rationals.
* Fallible external collaborators (the tf transform lookup, the recognition
  service) are parameters of the callback functions: `Except Unit _` for a lookup
  that can throw, `Option _` for a service call that can return failure.
* An out-of-bounds vector read is modelled by `List.getElem?` returning `none`.
-/

namespace SbplPerception

/-- One point of an organized cloud (`PointT` = `pcl::PointXYZRGB` in the source).
`none` coordinates model NaN / non-finite floats. -/
structure PointT where
  x : Option ℚ
  y : Option ℚ
  z : Option ℚ
  r : ℕ
  g : ℕ
  b : ℕ
deriving DecidableEq, Inhabited

/-- An organized point cloud (`pcl::PointCloud<PointT>`): a flat point list in
row-major pixel order plus the organized layout metadata. -/
structure PointCloud where
  points : List PointT
  width : ℕ
  height : ℕ
  is_dense : Bool
deriving DecidableEq, Inhabited

/-- Source line 496: `static_cast<int>(static_cast<double>(range_vals.size()) / 2.0 + 0.5)`.
For every `k` below `2^52` the double arithmetic `k / 2.0 + 0.5` is exact and the
truncating cast equals `⌊(k + 1) / 2⌋`, so the index is embedded directly over `ℕ`. -/
def middleIdx (k : ℕ) : ℕ := (k + 1) / 2

/-- Source lines 477-488: collect the depth (`z`) component of pixel `ii` from every
cloud in which it is finite, in cloud order. -/
def collectRangeVals (point_clouds : List PointCloud) (ii : ℕ) : List ℚ :=
  point_clouds.filterMap (fun c => (c.points[ii]?).bind PointT.z)

/-- Source lines 496-503: `std::nth_element(begin, begin + middle, end)` followed by the
read `*(range_vals.begin() + middle)`.  After `nth_element` the value at position
`middle` is the value at that position of the ascending-sorted list, so the selected
value is the sorted list's entry at zero-based index `middleIdx k`.  When that index
is out of range (which happens exactly at `k = 1`) the C++ read is past the end of the
scratch vector and has no defined value; this is modelled by `none`. -/
def selectDepth (range_vals : List ℚ) : Option ℚ :=
  (range_vals.insertionSort (· ≤ ·))[middleIdx range_vals.length]?

/-- Spec-side definition (§8): the exact statistical median of an odd-length list,
i.e. the ascending-sorted entry at 1-indexed ordinal `(n + 1) / 2`
(zero-based `(n - 1) / 2`). -/
def exactMedian (vals : List ℚ) : Option ℚ :=
  (vals.insertionSort (· ≤ ·))[(vals.length - 1) / 2]?

/-- Spec-side definition (§4.2 wording): the element at 1-indexed ordinal position `j`
of the list under ascending order. -/
def ordinalElement (vals : List ℚ) (j : ℕ) : Option ℚ :=
  (vals.insertionSort (· ≤ ·))[j - 1]?

/-- Source lines 457-514: `PerceptionInterface::IntegrateOrganizedClouds`.  Per pixel,
collect the finite depths over all clouds; a pixel with no finite observation copies the
first cloud's point verbatim, otherwise the first cloud's point is copied with `z`
replaced by the selected (partial-sort) depth.  Width / height / `is_dense` come from
the first cloud; an empty input yields a default-constructed cloud. -/
def IntegrateOrganizedClouds (point_clouds : List PointCloud) : PointCloud :=
  match point_clouds with
  | [] => { points := [], width := 0, height := 0, is_dense := true }
  | first :: _ =>
    { points := (List.range first.points.length).map (fun ii =>
        let range_vals := collectRangeVals point_clouds ii
        let p0 := first.points.getD ii default
        if range_vals.isEmpty then p0
        else { p0 with z := selectDepth range_vals }),
      width := first.width, height := first.height, is_dense := first.is_dense }

/-- A 1 x 1 organized cloud holding a single point with the given depth; used as a
concrete test input. -/
def mkCloud1 (z : Option ℚ) : PointCloud :=
  { points := [{ x := some 0, y := some 0, z := z, r := 10, g := 20, b := 30 }],
    width := 1, height := 1, is_dense := true }

/-- A 4 x 4 rigid-transform matrix over rationals (`Eigen::Matrix4d` /
`Eigen::Affine3d::matrix()`).  A published pose message is a deterministic marshalling
(`tf::poseEigenToMsg`) of such a matrix, so poses are modelled by the matrix they are
converted from. -/
abbrev Mat4 := Matrix (Fin 4) (Fin 4) ℚ

/-- Source line 337: `Eigen::Matrix4d eigen_pose(srv.response.object_transforms[ii].data.data())`.
Eigen initializes a fixed-size matrix from a raw pointer in column-major order:
entry `(i, j)` is the flat element `j * 4 + i`.  Missing elements default to `0`
(the claims are only used under the contract that 16 values are present). -/
def matFromColMajor (d : List ℚ) : Mat4 :=
  Matrix.of fun i j => d.getD (j.val * 4 + i.val) 0

/-- Spec-side definition (§4.5): the 16-value payload read as a 4 x 4 row-major matrix:
entry `(i, j)` is the flat element `i * 4 + j`. -/
def rowMajorMat (d : List ℚ) : Mat4 :=
  Matrix.of fun i j => d.getD (i.val * 4 + j.val) 0

/-- Goal resolution of the action server (`setSucceeded` / `setAborted`). -/
inductive GoalRes where
  | succeeded
  | aborted
deriving DecidableEq

/-- Startup configuration of the node (loaded once, immutable): workspace bounds and
support-surface height. -/
structure Config where
  xmin : ℚ
  xmax : ℚ
  ymin : ℚ
  ymax : ℚ
  table_height : ℚ

/-- The mutable member state of `PerceptionInterface` that the claims are about. -/
structure NodeState where
  capture_kinect : Bool
  recent_observations : List PointCloud
  latest_requested_objects : List String
  latest_object_poses : List Mat4
  perch_result_poses : List Mat4
  goal_active : Bool
  wait_for_recent : Bool
  cmd_rec_time : ℕ
  num_observations_to_integrate : ℕ

/-- An incoming sensor frame: capture timestamp (`header.stamp`) and organized cloud. -/
structure Frame where
  stamp : ℕ
  cloud : PointCloud

/-- Which control path `CloudCB` took, and on the dispatch path both the cloud actually
handed to `CloudCBInternal` (source line 173: the raw transformed frame `pcl_cloud`)
and the integrated cloud computed at source line 168 (which the source discards:
line 172, the call on it, is commented out). -/
inductive CloudCBResult where
  | notCapturing
  | tooOld
  | buffering
  | dispatched (cloudToInternal : PointCloud) (integrated : PointCloud)
deriving DecidableEq

/-- Source lines 108-177 (`PerceptionInterface::CloudCB`) up to and including the
integration step; the hand-off to `CloudCBInternal` and the final
`capture_kinect_ = false` are in `cloudCBFull` below, mirroring the call structure.
`lookup` is the tf collaborator result for this frame; on a lookup exception the
catch handler only logs (no early return), so the frame is transformed with the
still-default-constructed transform, modelled by the arbitrary `defaultTf`. -/
def cloudCB (s : NodeState) (lookup : Except Unit (PointCloud → PointCloud))
    (defaultTf : PointCloud → PointCloud) (frame : Frame) :
    NodeState × CloudCBResult :=
  if s.capture_kinect = false then (s, .notCapturing)
  else if s.wait_for_recent = true ∧ frame.stamp < s.cmd_rec_time then (s, .tooOld)
  else
    let tfApply := match lookup with
      | .ok t => t
      | .error _ => defaultTf
    let pcl_cloud := tfApply frame.cloud
    let obs := s.recent_observations ++ [pcl_cloud]
    let s1 := { s with recent_observations := obs }
    if obs.length < s.num_observations_to_integrate then (s1, .buffering)
    else (s1, .dispatched pcl_cloud (IntegrateOrganizedClouds obs))

/-- The per-identifier payload of the recognition service response
(`object_recognition_node::LocalizeObjects::Response`): one 16-value transform per
requested identifier plus named episode statistics. -/
structure LocalizeResponse where
  object_transforms : List (List ℚ)
  stats_field_names : List String
  stats : List ℚ

/-- Observable output of one `CloudCBInternal` run: the organized cloud packaged into
the recognition request, the requested identifiers sent, the pose messages published
on `perch_pose`, the visualization markers published on `perch_marker` (one per
object, modelled by the pose each carries), and the goal resolution if the action
server was active. -/
structure InternalOutcome where
  request_cloud : PointCloud
  request_object_ids : List String
  posesPublished : List Mat4
  markersPublished : List Mat4
  goalResolution : Option GoalRes

/-- A pass-through filter field selector (`setFilterFieldName`). -/
inductive FilterField where
  | x
  | y
  | z
deriving DecidableEq

/-- Read the selected coordinate of a point. -/
def PointT.field (p : PointT) : FilterField → Option ℚ
  | .x => p.x
  | .y => p.y
  | .z => p.z

/-- Mark a point invalid (what PCL's keep-organized filtering does to a removed point:
its coordinates become NaN, its color is kept). -/
def invalidate (p : PointT) : PointT :=
  { p with x := none, y := none, z := none }

/-- Source lines 220-243: one `pcl::PassThrough` stage with `setKeepOrganized(true)`:
a point whose selected field lies in the inclusive range is kept, every other point
(including points already invalid on that field) is invalidated in place, preserving
the organized layout. -/
def passThrough (fld : FilterField) (lo hi : ℚ) (c : PointCloud) : PointCloud :=
  { c with points := c.points.map (fun p =>
      match p.field fld with
      | some v => if lo ≤ v ∧ v ≤ hi then p else invalidate p
      | none => invalidate p) }

/-- Modelled from the spec: `perception_utils::IndexFilter` (repository code not under
`src/`) keeps only the points at the given inlier indices and marks every other point
invalid, preserving the organized layout (§4.3 step 2). -/
def indexFilter (c : PointCloud) (indices : List ℕ) : PointCloud :=
  { c with points := (List.range c.points.length).map (fun i =>
      let p := c.points.getD i default
      if i ∈ indices then p else invalidate p) }

/-- Source lines 270-276: every point with a NaN / non-finite depth gets its color
forced to black. -/
def blackenInvalid (c : PointCloud) : PointCloud :=
  { c with points := c.points.map (fun p =>
      if p.z = none then { p with r := 0, g := 0, b := 0 } else p) }

/-- Source lines 190-413 (`PerceptionInterface::CloudCBInternal`).  External
collaborators are parameters: `segmentation` is `perception_utils::OrganizedSegmentation`
(returning the inlier index lists of the planar regions found), `cameraLookup` is the
tf lookup of the camera pose (source line 279 — NOT wrapped in a try block, so a
lookup failure propagates as an uncaught exception, modelled by `Except.error`), and
`serviceResult` is the recognition service call's outcome (`none` = call failed). -/
def cloudCBInternal (cfg : Config) (s : NodeState)
    (segmentation : PointCloud → List (List ℕ))
    (cameraLookup : Except Unit Mat4)
    (serviceResult : Option LocalizeResponse)
    (original_cloud : PointCloud) : Except Unit (NodeState × InternalOutcome) :=
  let c1 := passThrough .x cfg.xmin cfg.xmax original_cloud
  let c2 := passThrough .y cfg.ymin cfg.ymax c1
  let c3 := passThrough .z (cfg.table_height - 1/10) (cfg.table_height + 11/20) c2
  let c4 := match segmentation c3 with
    | [] => c3
    | region0 :: _ => indexFilter c3 region0
  let c5 := blackenInvalid c4
  match cameraLookup with
  | .error e => .error e
  | .ok _camera_pose =>
    let object_ids := s.latest_requested_objects
    let s1 := { s with latest_object_poses := [] }
    match serviceResult with
    | some resp =>
      let poses := (List.range object_ids.length).map (fun ii =>
        Matrix.transpose (matFromColMajor (resp.object_transforms.getD ii [])))
      let s2 := { s1 with latest_object_poses := poses }
      let markers := poses
      let posePubs := poses.take 1
      if s2.goal_active then
        .ok ({ s2 with perch_result_poses := poses, goal_active := false },
             { request_cloud := c5, request_object_ids := object_ids,
               posesPublished := posePubs, markersPublished := markers,
               goalResolution := some .succeeded })
      else
        .ok (s2, { request_cloud := c5, request_object_ids := object_ids,
                   posesPublished := posePubs, markersPublished := markers,
                   goalResolution := none })
    | none =>
      if s1.goal_active then
        .ok ({ s1 with perch_result_poses := [], goal_active := false },
             { request_cloud := c5, request_object_ids := object_ids,
               posesPublished := [], markersPublished := [],
               goalResolution := some .aborted })
      else
        .ok (s1, { request_cloud := c5, request_object_ids := object_ids,
                   posesPublished := [], markersPublished := [],
                   goalResolution := none })

/-- The full sensor-frame callback: `cloudCB` followed, on the dispatch path, by
`CloudCBInternal` on the raw transformed frame and then `capture_kinect_ = false`
(source lines 173-175).  If `CloudCBInternal` throws, the flag reset is never reached
and the exception escapes the callback (and `ros::spinOnce()` in `main`, which has no
handler). -/
def cloudCBFull (cfg : Config) (s : NodeState)
    (lookup : Except Unit (PointCloud → PointCloud))
    (defaultTf : PointCloud → PointCloud)
    (segmentation : PointCloud → List (List ℕ))
    (cameraLookup : Except Unit Mat4)
    (serviceResult : Option LocalizeResponse)
    (frame : Frame) : Except Unit (NodeState × Option InternalOutcome) :=
  match cloudCB s lookup defaultTf frame with
  | (s1, .dispatched pcl_cloud _integrated) =>
    match cloudCBInternal cfg s1 segmentation cameraLookup serviceResult pcl_cloud with
    | .error e => .error e
    | .ok (s2, out) => .ok ({ s2 with capture_kinect := false }, some out)
  | (s1, _) => .ok (s1, none)

/-- Source lines 423-436 (`PerceptionInterface::RequestedObjectsCB`): a direct request
stores the single requested identifier, arms the gate, clears the observation buffer
and, when staleness gating is enabled, records the issue timestamp (`now`). -/
def requestedObjectsCB (s : NodeState) (object_name : String) (now : ℕ) : NodeState :=
  let s1 := { s with latest_requested_objects := [object_name],
                     capture_kinect := true,
                     recent_observations := [] }
  if s1.wait_for_recent then { s1 with cmd_rec_time := now } else s1

/-- Source lines 438-455 (`PerceptionInterface::PERCHGoalCB`): accept the new goal
(making it active), store its identifier list; an empty list resolves the goal
`Aborted` with cleared result poses and returns `false` without arming, otherwise the
gate is armed and `true` is returned.  The observation buffer is not touched. -/
def perchGoalCB (s : NodeState) (goal_object_ids : List String) :
    NodeState × Option GoalRes × Bool :=
  let s1 := { s with latest_requested_objects := goal_object_ids, goal_active := true }
  if goal_object_ids.isEmpty then
    ({ s1 with perch_result_poses := [], goal_active := false }, some .aborted, false)
  else
    ({ s1 with capture_kinect := true }, none, true)

/-- Projection: the outcome of an internal run, `none` when it threw. -/
def outcomeOf : Except Unit (NodeState × InternalOutcome) → Option InternalOutcome
  | .ok (_, out) => some out
  | .error _ => none

/-- Projection: `latest_object_poses_` after an internal run, `none` when it threw. -/
def posesOf : Except Unit (NodeState × InternalOutcome) → Option (List Mat4)
  | .ok (s, _) => some s.latest_object_poses
  | .error _ => none

/-- Armed state with one already-buffered frame of depth 5 and integration count 2. -/
def stateC1 : NodeState :=
  { capture_kinect := true, recent_observations := [mkCloud1 (some 5)],
    latest_requested_objects := ["mug"], latest_object_poses := [],
    perch_result_poses := [], goal_active := false, wait_for_recent := false,
    cmd_rec_time := 0, num_observations_to_integrate := 2 }

/-- A raw incoming frame of depth 1. -/
def frameC1 : Frame := { stamp := 7, cloud := mkCloud1 (some 1) }

/-- C1: fails on the code.  With integration count 2 and buffered depths 5 and 1, the
callback computes the integrated cloud (per-pixel selected depth 5) but hands the raw
last frame (depth 1) to `CloudCBInternal`: source line 173 passes `pcl_cloud`, and the
call on `integrated_cloud` (line 172) is commented out, so the integrated cloud is
discarded.  The two clouds differ, so the cloud packaged into the recognition request
is a single raw frame, not the Temporal Integrator's output. -/
theorem c1_raw_frame_dispatched_eval :
    (cloudCB stateC1 (.ok id) id frameC1).2
      = CloudCBResult.dispatched (mkCloud1 (some 1)) (mkCloud1 (some 5))
    ∧ mkCloud1 (some 1) ≠ mkCloud1 (some 5) := by
  refine ⟨rfl, by decide⟩

/-- C2: fails on the code.  For the odd-length depth sequence `[1, 2, 3]` the exact
statistical median is `2`, but the integrator outputs `3`: `middle = ⌊3/2 + 0.5⌋ = 2`
is used as a zero-based position into the partially sorted scratch vector, selecting
the third-smallest element (1-indexed ordinal `⌊k/2 + 0.5⌋ + 1`), one position above
the median — despite the source naming the selected value `median`. -/
theorem c2_odd_count_not_median_eval :
    (IntegrateOrganizedClouds
        [mkCloud1 (some 1), mkCloud1 (some 2), mkCloud1 (some 3)]).points.map PointT.z
      = [some 3]
    ∧ exactMedian [1, 2, 3] = some 2
    ∧ selectDepth [1, 2, 3] ≠ exactMedian [1, 2, 3]
    ∧ selectDepth [1, 2, 3] = ordinalElement [1, 2, 3] (middleIdx 3 + 1) := by
  refine ⟨rfl, rfl, by decide, rfl⟩

/-- C3: fails on the code.  For `k = 1` collected finite depth value — exactly the
situation of the default integration count 1 — the selection index
`⌊1/2 + 0.5⌋ = 1` is not strictly less than `k = 1`, so the read
`*(range_vals.begin() + middle)` is one past the end of the one-element scratch
vector (modelled by `none`): the integrated pixel's depth has no defined value. -/
theorem c3_selection_index_out_of_bounds_eval :
    middleIdx 1 = 1
    ∧ ¬ middleIdx 1 < 1
    ∧ selectDepth [(5 : ℚ)] = none
    ∧ (IntegrateOrganizedClouds [mkCloud1 (some 5)]).points.map PointT.z = [none] := by
  refine ⟨rfl, by decide, rfl, rfl⟩

/-- Armed state with an empty buffer and integration count 2. -/
def stateC4 : NodeState :=
  { capture_kinect := true, recent_observations := [],
    latest_requested_objects := ["mug"], latest_object_poses := [],
    perch_result_poses := [], goal_active := false, wait_for_recent := false,
    cmd_rec_time := 0, num_observations_to_integrate := 2 }

/-- A raw incoming frame of depth 3. -/
def frameC4 : Frame := { stamp := 0, cloud := mkCloud1 (some 3) }

/-- C4: fails on the code.  When the per-frame transform lookup throws, the catch
handler (source lines 131-135) only logs and does not return, so the frame is
transformed with the still-default-constructed transform (instantiated here as `id`)
and appended anyway: the buffer grows from 0 to 1 frame, the gate stays armed, and
the frame is not dropped as the claim states. -/
theorem c4_lookup_failure_frame_still_appended_eval :
    (cloudCB stateC4 (.error ()) id frameC4).1.recent_observations = [mkCloud1 (some 3)]
    ∧ (cloudCB stateC4 (.error ()) id frameC4).2 = CloudCBResult.buffering
    ∧ (cloudCB stateC4 (.error ()) id frameC4).1.capture_kinect = true := by
  refine ⟨rfl, rfl, rfl⟩

/-- Workspace bounds used in concrete runs. -/
def cfgA : Config :=
  { xmin := -10, xmax := 10, ymin := -10, ymax := 10, table_height := 0 }

/-- Armed state with integration count 1, an active goal and one requested object. -/
def stateC5 : NodeState :=
  { capture_kinect := true, recent_observations := [],
    latest_requested_objects := ["mug"], latest_object_poses := [],
    perch_result_poses := [], goal_active := true, wait_for_recent := false,
    cmd_rec_time := 0, num_observations_to_integrate := 1 }

/-- A raw incoming frame of depth 1. -/
def frameC5 : Frame := { stamp := 3, cloud := mkCloud1 (some 1) }

/-- C5: fails on the code.  The camera-pose lookup at source line 279 is not wrapped
in a try block, so a lookup failure at Pose Context Builder time escapes
`CloudCBInternal` and `CloudCB` as an uncaught exception (`Except.error`): no abort
resolution is produced, `capture_kinect_` is never reset (line 175 is not reached),
and — since `main` runs `ros::spinOnce()` with no handler — the exception is
process-fatal rather than a per-request abort. -/
theorem c5_camera_lookup_failure_uncaught_eval :
    cloudCBFull cfgA stateC5 (.ok id) id (fun _ => []) (.error ()) none frameC5
      = .error () := by
  rfl

/-- State with two requested identifiers and no active goal. -/
def stateC6 : NodeState :=
  { capture_kinect := true, recent_observations := [],
    latest_requested_objects := ["mug", "bowl"], latest_object_poses := [],
    perch_result_poses := [], goal_active := false, wait_for_recent := false,
    cmd_rec_time := 0, num_observations_to_integrate := 1 }

/-- A successful response carrying one transform payload per requested identifier. -/
def respC6 : LocalizeResponse :=
  { object_transforms := [[], []], stats_field_names := [], stats := [] }

/-- C6: counterexample.  On a successful response with `K = 2` requested identifiers
the run publishes 2 visualization markers but only 1 pose message (the source
publishes a pose only for `ii == 0`, line 395), not `K = 2` pose publications as the
claim states. -/
theorem c6_single_pose_publication_counterexample :
    (outcomeOf (cloudCBInternal cfgA stateC6 (fun _ => []) (.ok (rowMajorMat []))
        (some respC6) (mkCloud1 (some 1)))).map
      (fun out => (out.posesPublished.length, out.markersPublished.length))
      = some (1, 2)
    ∧ (1 : ℕ) ≠ 2 := by
  refine ⟨rfl, by decide⟩

/-- C6 amended: on a successful recognition response with `K` requested identifiers,
exactly one visualization marker is published per object (`K` markers), but only a
single pose message — the first requested object's — is published in total
(`min 1 K`: one when `K ≥ 1`, zero when `K = 0`). -/
theorem c6_markers_per_object_single_pose (cfg : Config) (s : NodeState)
    (segmentation : PointCloud → List (List ℕ)) (M : Mat4)
    (resp : LocalizeResponse) (cloud : PointCloud) :
    (outcomeOf (cloudCBInternal cfg s segmentation (.ok M) (some resp) cloud)).map
        (fun out => (out.posesPublished.length, out.markersPublished.length))
      = some (min 1 s.latest_requested_objects.length,
              s.latest_requested_objects.length) := by
  unfold cloudCBInternal
  cases hg : s.goal_active <;>
    simp [hg, outcomeOf, List.length_take]

/-- State left over after a completed capture: gate disarmed, one stale frame still
buffered, integration count 1. -/
def stateC7 : NodeState :=
  { capture_kinect := false, recent_observations := [mkCloud1 (some 5)],
    latest_requested_objects := [], latest_object_poses := [],
    perch_result_poses := [], goal_active := false, wait_for_recent := false,
    cmd_rec_time := 0, num_observations_to_integrate := 1 }

/-- A fresh raw frame of depth 1 for the goal-based capture. -/
def frameC7 : Frame := { stamp := 9, cloud := mkCloud1 (some 1) }

/-- C7: counterexample.  A goal-accept request arriving with a stale frame still
buffered does not clear the ObservationBuffer (`PERCHGoalCB` never touches
`recent_observations_`), and the next accepted frame triggers integration over both
the stale frame (depth 5) and the new one (depth 1) — the integrated cloud's depth 5
comes from the earlier capture's frame. -/
theorem c7_goal_accept_keeps_stale_buffer_counterexample :
    ((perchGoalCB stateC7 ["mug"]).1).recent_observations = [mkCloud1 (some 5)]
    ∧ ((perchGoalCB stateC7 ["mug"]).1).recent_observations ≠ []
    ∧ (cloudCB (perchGoalCB stateC7 ["mug"]).1 (.ok id) id frameC7).2
        = CloudCBResult.dispatched (mkCloud1 (some 1)) (mkCloud1 (some 5)) := by
  refine ⟨rfl, by decide, rfl⟩

/-- C7 amended: the ObservationBuffer is cleared at the start of a CaptureRequest
only when it arrives via the direct request channel (`RequestedObjectsCB`); a
goal-accept request arms the gate without clearing the buffer, and an accepted frame
is always appended to whatever the buffer already holds (no clearing happens after
integration either), so frames accepted for one capture can be integrated into a
later goal-based capture. -/
theorem c7_buffer_clearing_policy (s sg : NodeState) (name : String) (now : ℕ)
    (ids : List String) (t dtf : PointCloud → PointCloud) (f : Frame)
    (harm : sg.capture_kinect = true)
    (hfresh : ¬(sg.wait_for_recent = true ∧ f.stamp < sg.cmd_rec_time)) :
    (requestedObjectsCB s name now).recent_observations = []
    ∧ ((perchGoalCB sg ids).1).recent_observations = sg.recent_observations
    ∧ (cloudCB sg (.ok t) dtf f).1.recent_observations
        = sg.recent_observations ++ [t f.cloud] := by
  refine ⟨?_, ?_, ?_⟩
  · unfold requestedObjectsCB
    dsimp only
    split <;> rfl
  · unfold perchGoalCB
    split <;> rfl
  · unfold cloudCB
    rw [if_neg (by simp [harm]), if_neg hfresh]
    dsimp only
    split <;> rfl

/-- C7 amended, witness: the three clauses at concrete states — a direct request on
the stale-buffer state clears the buffer, a goal accept on the armed state keeps the
buffer, and an accepted frame is appended to it. -/
theorem c7_buffer_clearing_policy_witness :
    (requestedObjectsCB stateC7 "mug" 0).recent_observations = []
    ∧ ((perchGoalCB stateC1 ["bowl"]).1).recent_observations
        = stateC1.recent_observations
    ∧ (cloudCB stateC1 (.ok id) id frameC1).1.recent_observations
        = stateC1.recent_observations ++ [id frameC1.cloud] :=
  c7_buffer_clearing_policy stateC7 stateC1 "mug" 0 ["bowl"] id id frameC1 rfl
    (by decide)

/-- Transposing the column-major reading of a flat payload yields its row-major
reading (the deserialization step of §4.5). -/
theorem transpose_matFromColMajor (d : List ℚ) :
    Matrix.transpose (matFromColMajor d) = rowMajorMat d := by
  ext i j
  rfl

/-- C8: confirmed.  With the camera pose resolved, a failed recognition service call
leaves `latest_object_poses_` cleared (zero ObjectPoseResults regardless of earlier
content) and resolves an active goal `Aborted`; a successful call with `K` requested
identifiers produces exactly `K` ObjectPoseResults, index-aligned to the request
order, the `ii`-th built from the `ii`-th 16-value payload read column-major and
transposed — i.e. equal to the spec-side row-major reading of that payload — and
resolves an active goal `Succeeded`. -/
theorem c8_dispatch_failure_and_success_results (cfg : Config) (s : NodeState)
    (segmentation : PointCloud → List (List ℕ)) (M : Mat4)
    (resp : LocalizeResponse) (cloud : PointCloud) :
    posesOf (cloudCBInternal cfg s segmentation (.ok M) none cloud) = some []
    ∧ (outcomeOf (cloudCBInternal cfg s segmentation (.ok M) none cloud)).map
        InternalOutcome.goalResolution
      = some (if s.goal_active = true then some GoalRes.aborted else none)
    ∧ posesOf (cloudCBInternal cfg s segmentation (.ok M) (some resp) cloud)
      = some ((List.range s.latest_requested_objects.length).map
          (fun ii => rowMajorMat (resp.object_transforms.getD ii [])))
    ∧ (outcomeOf (cloudCBInternal cfg s segmentation (.ok M) (some resp) cloud)).map
        InternalOutcome.goalResolution
      = some (if s.goal_active = true then some GoalRes.succeeded else none) := by
  unfold cloudCBInternal
  cases hg : s.goal_active <;>
    simp [hg, outcomeOf, posesOf, transpose_matFromColMajor]

/-- Idle state (gate disarmed) with a leftover result pose, to show clearing. -/
def stateC9 : NodeState :=
  { capture_kinect := false, recent_observations := [],
    latest_requested_objects := ["mug"], latest_object_poses := [],
    perch_result_poses := [rowMajorMat []], goal_active := false,
    wait_for_recent := false, cmd_rec_time := 0, num_observations_to_integrate := 1 }

/-- C9: confirmed.  From an Idle (disarmed) state, a goal-accept event with an empty
identifier list resolves the goal `Aborted` with an empty result, returns `false`,
leaves the gate disarmed and the buffer untouched, and every subsequent frame is
rejected by the disarmed gate without being buffered. -/
theorem c9_empty_goal_rejected (s : NodeState) (h : s.capture_kinect = false) :
    (perchGoalCB s []).2.1 = some GoalRes.aborted
    ∧ (perchGoalCB s []).2.2 = false
    ∧ ((perchGoalCB s []).1).capture_kinect = false
    ∧ ((perchGoalCB s []).1).perch_result_poses = []
    ∧ ((perchGoalCB s []).1).recent_observations = s.recent_observations
    ∧ ∀ (lookup : Except Unit (PointCloud → PointCloud))
        (dtf : PointCloud → PointCloud) (f : Frame),
        cloudCB (perchGoalCB s []).1 lookup dtf f
          = ((perchGoalCB s []).1, CloudCBResult.notCapturing) := by
  refine ⟨rfl, rfl, h, rfl, rfl, ?_⟩
  intro lookup dtf f
  unfold cloudCB
  rw [if_pos (show ((perchGoalCB s []).1).capture_kinect = false from h)]

/-- C9 witness: the empty-goal rejection at a concrete Idle state. -/
theorem c9_empty_goal_rejected_witness :
    (perchGoalCB stateC9 []).2.1 = some GoalRes.aborted
    ∧ (perchGoalCB stateC9 []).2.2 = false
    ∧ ((perchGoalCB stateC9 []).1).capture_kinect = false
    ∧ ((perchGoalCB stateC9 []).1).perch_result_poses = []
    ∧ ((perchGoalCB stateC9 []).1).recent_observations = stateC9.recent_observations
    ∧ ∀ (lookup : Except Unit (PointCloud → PointCloud))
        (dtf : PointCloud → PointCloud) (f : Frame),
        cloudCB (perchGoalCB stateC9 []).1 lookup dtf f
          = ((perchGoalCB stateC9 []).1, CloudCBResult.notCapturing) :=
  c9_empty_goal_rejected stateC9 rfl

/-- C10: confirmed.  With staleness gating enabled and issue timestamp `T` recorded
by the direct request handler, an armed gate rejects (state unchanged, buffer
unchanged) every frame whose capture timestamp is strictly before `T`, and a frame
stamped `T + 1` passes the staleness check and is appended to the buffer; moreover
the direct request handler records the issue timestamp when staleness gating is
enabled. -/
theorem c10_staleness_gating (s : NodeState) (t dtf : PointCloud → PointCloud)
    (f g : Frame) (name : String) (now : ℕ)
    (harm : s.capture_kinect = true) (hwait : s.wait_for_recent = true)
    (hold : f.stamp < s.cmd_rec_time) (hnew : g.stamp = s.cmd_rec_time + 1) :
    cloudCB s (.ok t) dtf f = (s, CloudCBResult.tooOld)
    ∧ (cloudCB s (.ok t) dtf g).1.recent_observations
        = s.recent_observations ++ [t g.cloud]
    ∧ (requestedObjectsCB s name now).cmd_rec_time = now := by
  refine ⟨?_, ?_, ?_⟩
  · unfold cloudCB
    rw [if_neg (by simp [harm]), if_pos ⟨hwait, hold⟩]
  · unfold cloudCB
    rw [if_neg (by simp [harm]), if_neg (by simp [hnew])]
    dsimp only
    split <;> rfl
  · unfold requestedObjectsCB
    dsimp only
    rw [if_pos hwait]

/-- Armed state with staleness gating enabled and issue timestamp 5. -/
def stateC10 : NodeState :=
  { capture_kinect := true, recent_observations := [],
    latest_requested_objects := ["mug"], latest_object_poses := [],
    perch_result_poses := [], goal_active := false, wait_for_recent := true,
    cmd_rec_time := 5, num_observations_to_integrate := 3 }

/-- A frame captured before the issue timestamp. -/
def frameOldC10 : Frame := { stamp := 4, cloud := mkCloud1 (some 1) }

/-- A frame captured just after the issue timestamp. -/
def frameNewC10 : Frame := { stamp := 6, cloud := mkCloud1 (some 2) }

/-- C10 witness: staleness gating at issue timestamp 5 rejects the frame stamped 4
and appends the frame stamped 6. -/
theorem c10_staleness_gating_witness :
    cloudCB stateC10 (.ok id) id frameOldC10 = (stateC10, CloudCBResult.tooOld)
    ∧ (cloudCB stateC10 (.ok id) id frameNewC10).1.recent_observations
        = stateC10.recent_observations ++ [id frameNewC10.cloud]
    ∧ (requestedObjectsCB stateC10 "mug" 11).cmd_rec_time = 11 :=
  c10_staleness_gating stateC10 id id frameOldC10 frameNewC10 "mug" 11 rfl rfl
    (by decide) rfl

end SbplPerception
